import Mathlib

/-!
Verification development for the openwrt-composer firmware build
orchestrator.  The definitions below are a shallow embedding of the
Python sources (`builder.py`, `netjsonconfig.py`, `schemas.py`,
`utils.py`, `podman.py`): filesystem effects are made explicit through a
small filesystem state, HTTP access through an explicit `Remote`
oracle, and the container-engine through boolean cache-gate inputs and
an event trace.  The two constants imported from the external
`netjsonconfig` library (`packages_pattern`, `config_path`) are not part
of this repository; they are modelled from the specification and marked
as such in their doc comments.
-/

/-- A filesystem path, as the list of its segments from the root of the
modelled tree. -/
abbrev FsPath := List String

/-- A snapshot of the filesystem state: the set of directories that
exist, and an association of file paths to their text contents (the
head entry for a path is the current contents, so prepending models an
overwriting `open(path, "w")`). -/
structure FS where
  dirs : List FsPath
  files : List (FsPath × String)
deriving DecidableEq

/-- First-match lookup of a file's contents. -/
def lookupFile : List (FsPath × String) → FsPath → Option String
  | [], _ => none
  | e :: rest, p => if e.1 = p then some e.2 else lookupFile rest p

/-- Whether `p` exists as a directory (`Path.is_dir`). -/
def FS.isDir (fs : FS) (p : FsPath) : Bool := decide (p ∈ fs.dirs)

/-- Whether `p` exists as a regular file. -/
def FS.isFile (fs : FS) (p : FsPath) : Bool := (lookupFile fs.files p).isSome

/-- Whether `p` exists at all (`Path.exists`). -/
def FS.pathExists (fs : FS) (p : FsPath) : Bool := fs.isDir p || fs.isFile p

/-- Write (create or overwrite) the file at `p` with contents `c`
(`open(p, "w"); fp.write(c)`). -/
def FS.writeFile (fs : FS) (p : FsPath) (c : String) : FS :=
  { fs with files := (p, c) :: fs.files }

/-- Create the directory `p` together with all of its ancestors
(`p.mkdir(parents=True)` on the success path; the callers check for an
existing `p` first, matching `FileExistsError` being raised exactly
when `p` already exists). -/
def FS.mkdirParents (fs : FS) (p : FsPath) : FS :=
  { fs with dirs := p.inits ++ fs.dirs }

/-- The error raised by the configuration-materialization functions
(`openwrt_composer.exceptions.ConfigCreationError`). -/
inductive CfgError where
  | configCreationError
deriving DecidableEq

/-- Splitting a string into its newline-separated lines, accumulator
version.  This mirrors Python `str.split("\n")`: a trailing newline
yields a trailing empty line, and the empty string yields one empty
line. -/
def linesOfAux : List Char → List Char → List String
  | [], acc => [String.mk acc.reverse]
  | c :: cs, acc =>
    if c = '\n' then String.mk acc.reverse :: linesOfAux cs []
    else linesOfAux cs (c :: acc)

/-- Python `s.split("\n")`. -/
def linesOf (s : String) : List String := linesOfAux s.data []

/-- Grouping of the lines of a rendered configuration blob into package
sections.  Modelled from the spec: the package-boundary delimiter of
the external configuration renderer (`netjsonconfig`'s
`packages_pattern`, absent from this repository) matches, with zero
width, the start of each package-header line — a line that is followed
by the blank separator line and at least one further line.  A group
therefore starts at each such header, and a match at the very start of
the blob contributes an empty leading group. -/
def groupSections : List String → List (List String)
  | [] => [[]]
  | l :: rest =>
    match groupSections rest, rest with
    | g :: gs, "" :: _ :: _ => [] :: (l :: g) :: gs
    | g :: gs, _ => (l :: g) :: gs
    | [], _ => [[l]]

/-- Rendering the groups back to the segment strings `re.split` would
return: a zero-width delimiter consumes nothing, so every non-final
nonempty group keeps the newline that separated it from the next
header, while an empty group (a match at the start) is the empty
string. -/
def renderGroups : List (List String) → List String
  | [] => []
  | [g] => [String.intercalate "\n" g]
  | g :: gs =>
    (if g = [] then "" else String.intercalate "\n" g ++ "\n") :: renderGroups gs

/-- Modelled from the spec: `packages_pattern.split(uci)` of the
external renderer — splits the rendered blob on the package-boundary
delimiter. -/
def splitSections (blob : String) : List String :=
  renderGroups (groupSections (linesOf blob))

/-- Modelled from the spec: `config_path` of the external renderer, the
fixed config subpath under the output directory into which the
per-package files are written. -/
def config_path : FsPath := ["etc", "config"]

/-- The package list computed by `OpenWrtConfig.create_files` from the
rendered blob: the split segments with the empty (leading) segment
discarded (`if "" in packages: packages.remove("")` removes the first
empty segment). -/
def packagesOf (blob : String) : List String :=
  (splitSections blob).erase ""

/-- The path of the file written for one package segment:
`files_dir / config_path / package_name` where the package name is the
segment's first line. -/
def packageTarget (files_dir : FsPath) (package : String) : FsPath :=
  files_dir ++ config_path ++ [(linesOf package).headD ""]

/-- The body of one loop iteration of `OpenWrtConfig.create_files`
(netjsonconfig.py lines 89-116): split the segment into lines, take the
first line as the package name and the lines after the blank separator
as the contents, fail if the target exists, fail (via `FileExistsError`
caught as `IOError`) if the parent directory already exists when
`parent.mkdir(parents=True)` is attempted, otherwise create the parent
and write the file. -/
def writePackage (files_dir : FsPath) (fs : FS) (package : String) :
    Except CfgError FS :=
  let lines := linesOf package
  let package_name := lines.headD ""
  let contents := String.intercalate "\n" (lines.drop 2)
  let path := files_dir ++ config_path ++ [package_name]
  if fs.pathExists path then .error .configCreationError
  else
    let parent := path.dropLast
    if fs.pathExists parent then .error .configCreationError
    else .ok ((fs.mkdirParents parent).writeFile path contents)

/-- The per-package loop of `OpenWrtConfig.create_files`; an exception
aborts the loop, leaving the writes of earlier iterations in place. -/
def createFilesLoop (files_dir : FsPath) :
    FS → List String → Option CfgError × FS
  | fs, [] => (none, fs)
  | fs, pkg :: rest =>
    match writePackage files_dir fs pkg with
    | .error e => (some e, fs)
    | .ok fs' => createFilesLoop files_dir fs' rest

/-- `OpenWrtConfig.create_files` (netjsonconfig.py lines 56-116),
starting from the rendered blob `uci = self.render(files=False)`
produced by the external renderer (validation and rendering are
delegated to that collaborator and are upstream of this model): check
that the output directory exists, split the blob into package segments,
discard the empty segment, and materialize each segment. -/
def OpenWrtConfig.create_files (blob : String) (files_dir : FsPath)
    (fs : FS) : Option CfgError × FS :=
  if fs.isDir files_dir then
    createFilesLoop files_dir fs (packagesOf blob)
  else (some .configCreationError, fs)

/-- A file entry of the manifest (`schemas.FileContentsSpec`): the
target path inside the firmware root, given here as its segments after
`Path(self.path).relative_to("/")`, together with the literal
contents. -/
structure FileContentsSpec where
  path : FsPath
  contents : String
deriving DecidableEq

/-- The shared body of one file materialization, as written identically
in `FileContentsSpec.create_file_at_location` (schemas.py lines 61-80)
and in the loop of `utils.create_files` (utils.py lines 43-71): fail if
the full path exists, fail (via `FileExistsError` caught as `IOError`)
if the parent directory already exists when `parent.mkdir(parents=True)`
is attempted, otherwise create the parent and write the file. -/
def createFileStep (files_dir : FsPath) (fs : FS) (file : FileContentsSpec) :
    Except CfgError FS :=
  let full_path := files_dir ++ file.path
  if fs.pathExists full_path then .error .configCreationError
  else
    let parent := full_path.dropLast
    if fs.pathExists parent then .error .configCreationError
    else .ok ((fs.mkdirParents parent).writeFile full_path file.contents)

/-- `FileContentsSpec.create_file_at_location` (schemas.py lines
40-80). -/
def FileContentsSpec.create_file_at_location (file : FileContentsSpec)
    (location : FsPath) (fs : FS) : Option CfgError × FS :=
  if fs.isDir location then
    match createFileStep location fs file with
    | .error e => (some e, fs)
    | .ok fs' => (none, fs')
  else (some .configCreationError, fs)

/-- The per-file loop of `utils.create_files`. -/
def utilsCreateFilesLoop (files_dir : FsPath) :
    FS → List FileContentsSpec → Option CfgError × FS
  | fs, [] => (none, fs)
  | fs, file :: rest =>
    match createFileStep files_dir fs file with
    | .error e => (some e, fs)
    | .ok fs' => utilsCreateFilesLoop files_dir fs' rest

/-- `utils.create_files` (utils.py lines 12-71). -/
def Utils.create_files (files : List FileContentsSpec) (files_dir : FsPath)
    (fs : FS) : Option CfgError × FS :=
  if fs.isDir files_dir then utilsCreateFilesLoop files_dir fs files
  else (some .configCreationError, fs)

/-- The package delta of the manifest (`schemas.PackagesSpec`). -/
structure PackagesSpec where
  add : List String
  remove : List String
deriving DecidableEq

/-- `PackagesSpec.as_string` (schemas.py lines 19-33): the add names
followed by the remove names prefixed with `-`, joined by single
spaces. -/
def PackagesSpec.as_string (packages : PackagesSpec) : String :=
  let packages_list := packages.add ++ packages.remove.map (fun pkg => "-" ++ pkg)
  String.intercalate " " packages_list

/-- `utils.create_package_list` (utils.py lines 74-92). -/
def create_package_list (packages : PackagesSpec) : String :=
  let packages_list := packages.add ++ packages.remove.map (fun pkg => "-" ++ pkg)
  String.intercalate " " packages_list

/-- `builder._BASE_IMAGE_TAG` (builder.py line 97): the fixed base-tier
image tag. -/
def _BASE_IMAGE_TAG : String := "openwrt-composer-base"

/-- The state constructed by `Builder.__init__` (builder.py lines
133-172): the derived image tags, archive names and context-directory
paths. -/
structure BuilderState where
  version : String
  target : String
  sub_target : String
  profile : String
  work_dir : FsPath
  openwrt_base_url : String
  builder_image_tag : String
  base_image_tag : String
  archive_dir : String
  archive_file : String
  base_context_dir : FsPath
  builder_context_dir : FsPath
deriving DecidableEq

/-- `Builder.__init__` (builder.py lines 133-172).  The base-URL
normalization `endswith("/")` is expressed on the underlying character
list. -/
def Builder.init (version target sub_target profile : String)
    (work_dir : FsPath) (openwrt_base_url : String) : BuilderState :=
  let url :=
    if openwrt_base_url.data.getLast? = some '/' then openwrt_base_url
    else openwrt_base_url ++ "/"
  let archive_dir :=
    "openwrt-imagebuilder-" ++ version ++ "-" ++ target ++ "-" ++ sub_target
      ++ ".Linux-x86_64"
  { version := version
    target := target
    sub_target := sub_target
    profile := profile
    work_dir := work_dir
    openwrt_base_url := url
    builder_image_tag :=
      "openwrt-composer-" ++ version ++ "-" ++ target ++ "-" ++ sub_target
    base_image_tag := _BASE_IMAGE_TAG
    archive_dir := archive_dir
    archive_file := archive_dir ++ ".tar.xz"
    base_context_dir := work_dir ++ ["base"]
    builder_context_dir := work_dir ++ [version, target, sub_target] }

/-- The path of the staged builder archive inside the builder context
directory (`self._builder_context_dir / self._archive_file`). -/
def archivePath (st : BuilderState) : FsPath :=
  st.builder_context_dir ++ [st.archive_file]

/-- The behavior of the remote archive origin for one request: a
successful response carrying the body, a response with a non-success
status (`res.ok` false), or a transport-level error raised by the HTTP
client out of `requests.get`. -/
inductive Remote where
  | ok (body : String)
  | httpError
  | transportError
deriving DecidableEq

/-- How a fetch attempt terminates: success, the repository's
`ImageBuilderRetrievalFailure`, or the HTTP client's own transport
exception propagating uncaught. -/
inductive FetchErr where
  | imageBuilderRetrievalFailure
  | transportException
deriving DecidableEq

/-- Result of `Builder._retrieve_builder_archive`: the outcome, the
filesystem afterwards, and whether network I/O was performed. -/
structure FetchResult where
  outcome : Option FetchErr
  fs : FS
  networkIO : Bool
deriving DecidableEq

/-- `Builder._retrieve_builder_archive` (builder.py lines 192-224): if
the archive already exists at its target path, return immediately;
otherwise issue the HTTP request — a successful response is streamed to
the target file, a non-success status raises
`ImageBuilderRetrievalFailure`, and a transport error from the client
propagates uncaught. -/
def retrieve_builder_archive (st : BuilderState) (fs : FS)
    (remote : Remote) : FetchResult :=
  let builder_archive := archivePath st
  if fs.pathExists builder_archive then ⟨none, fs, false⟩
  else
    match remote with
    | .ok body => ⟨none, fs.writeFile builder_archive body, true⟩
    | .httpError => ⟨some .imageBuilderRetrievalFailure, fs, true⟩
    | .transportError => ⟨some .transportException, fs, true⟩

/-- The error raised when preparing a context directory fails
(`exceptions.ContextDirectoryCreationFailure`). -/
inductive CtxErr where
  | contextDirectoryCreationFailure
deriving DecidableEq

/-- `builder._prepare_context_dir` (builder.py lines 20-62): fail if the
context path exists but is not a directory; create the directory only
when absent (`mkdir(parents=True, exist_ok=True)`); then write the
Containerfile and every auxiliary file unconditionally, overwriting any
existing contents. -/
def prepare_context_dir (context_dir : FsPath) (containerfile : String)
    (files : List (String × String)) (fs : FS) : Option CtxErr × FS :=
  if fs.pathExists context_dir then
    if fs.isDir context_dir then
      (none, files.foldl (fun a nc => a.writeFile (context_dir ++ [nc.1]) nc.2)
        (fs.writeFile (context_dir ++ ["Containerfile"]) containerfile))
    else (some .contextDirectoryCreationFailure, fs)
  else
    (none, files.foldl (fun a nc => a.writeFile (context_dir ++ [nc.1]) nc.2)
      ((fs.mkdirParents context_dir).writeFile (context_dir ++ ["Containerfile"])
        containerfile))

/-- The firmware build command constructed by `Builder.build_firmware`
(builder.py lines 304-325): the fixed base command, then `PACKAGES=`
when a packages string was supplied, the fixed files token when a files
directory was supplied, and `EXTRA_IMAGE_NAME=` when an extra name was
supplied. -/
def build_cmd (profile : String) (packages : Option String)
    (filesDirGiven : Bool) (extra_name : Option String) : List String :=
  ["make", "image", "PROFILE=" ++ profile, "BIN_DIR=/openwrt/result"]
    ++ (match packages with | some p => ["PACKAGES=" ++ p] | none => [])
    ++ (if filesDirGiven then ["FILES=/openwrt/files"] else [])
    ++ (match extra_name with | some n => ["EXTRA_IMAGE_NAME=" ++ n] | none => [])

/-- The observable collaborator invocations of one `build_firmware`
run. -/
inductive Event where
  | prepareBaseContext
  | createBaseImage
  | prepareBuilderContext
  | retrieveBuilderArchive
  | createBuilderImage
  | runFirmwareBuild (cmd : List String)
deriving DecidableEq

/-- The external conditions of one `build_firmware` run: what the image
cache gate reports for each tier (`PodmanBuilder._image_exists`, whose
negation is `_base_image_build_needed` / `_builder_image_build_needed`),
whether each image build succeeds, whether the archive is already
staged, and whether the remote origin is reachable with a successful
status. -/
structure BuildEnv where
  baseImageExists : Bool
  builderImageExists : Bool
  baseBuildOk : Bool
  archivePresent : Bool
  remoteOk : Bool
  builderBuildOk : Bool
deriving DecidableEq

/-- The builder-tier phase of `Builder.build_firmware` (builder.py lines
296-302): when the gate reports the builder image absent, prepare the
builder context, invoke the archive fetcher (which fails only when the
archive is not staged and the remote fails), and invoke the image
build; any failure aborts before the continuation `rest`. -/
def builder_phase (e : BuildEnv) (rest : List Event) : List Event :=
  if e.builderImageExists then rest
  else
    Event.prepareBuilderContext :: Event.retrieveBuilderArchive ::
      (if e.archivePresent || e.remoteOk then
        Event.createBuilderImage :: (if e.builderBuildOk then rest else [])
      else [])

/-- `Builder.build_firmware` (builder.py lines 271-325) as the sequence
of collaborator invocations it performs: the base tier (prepare and
create only when the gate reports the base image absent), then the
builder tier, then the final containerized firmware build with the
constructed command. -/
def build_firmware_events (e : BuildEnv) (profile : String)
    (packages : Option String) (filesDirGiven : Bool)
    (extra_name : Option String) : List Event :=
  let rest := builder_phase e
    [Event.runFirmwareBuild (build_cmd profile packages filesDirGiven extra_name)]
  if e.baseImageExists then rest
  else
    Event.prepareBaseContext :: Event.createBaseImage ::
      (if e.baseBuildOk then rest else [])

/-- Two strings with the same character data are equal. -/
theorem string_data_inj {s t : String} (h : s.data = t.data) : s = t := by
  cases s
  cases t
  exact congrArg String.mk h

/-- Character data of an appended string. -/
theorem data_append (s t : String) : (s ++ t).data = s.data ++ t.data := by
  cases s
  cases t
  rfl

/-- Two appended character lists differ when their left parts disagree at
some common index. -/
theorem append_ne_of_get?_ne {l₁ l₂ s t : List Char} {i : Nat} {c₁ c₂ : Char}
    (h₁ : l₁.get? i = some c₁) (h₂ : l₂.get? i = some c₂) (hne : c₁ ≠ c₂) :
    l₁ ++ s ≠ l₂ ++ t := by
  intro h
  obtain ⟨hl₁, -⟩ := List.get?_eq_some.1 h₁
  obtain ⟨hl₂, -⟩ := List.get?_eq_some.1 h₂
  have e₁ : (l₁ ++ s).get? i = some c₁ := by rw [List.get?_append hl₁]; exact h₁
  have e₂ : (l₂ ++ t).get? i = some c₂ := by rw [List.get?_append hl₂]; exact h₂
  rw [h, e₂] at e₁
  exact hne (Option.some.inj e₁).symm

/-- Two token strings built from distinct literal heads differ. -/
theorem str_tok_ne (a b s t : String) (i : Nat) (c₁ c₂ : Char)
    (h₁ : a.data.get? i = some c₁) (h₂ : b.data.get? i = some c₂)
    (hne : c₁ ≠ c₂) : a ++ s ≠ b ++ t := by
  intro h
  have hd : a.data ++ s.data = b.data ++ t.data := by
    rw [← data_append, ← data_append, h]
  exact append_ne_of_get?_ne h₁ h₂ hne hd

/-- A token string differs from a plain literal that disagrees at some
index of the token's head. -/
theorem str_tok_ne_lit (a s b : String) (i : Nat) (c₁ c₂ : Char)
    (h₁ : a.data.get? i = some c₁) (h₂ : b.data.get? i = some c₂)
    (hne : c₁ ≠ c₂) : a ++ s ≠ b := by
  intro h
  obtain ⟨hl₁, -⟩ := List.get?_eq_some.1 h₁
  have e₁ : (a.data ++ s.data).get? i = some c₁ := by
    rw [List.get?_append hl₁]; exact h₁
  rw [← data_append, h, h₂] at e₁
  exact hne (Option.some.inj e₁).symm

/-- C5: for every package delta, serialization joins the add tokens in
input order followed by the remove tokens in input order prefixed with
a minus sign; `{add:["a","b"], remove:["c"]}` serializes to `"a b -c"`,
the empty delta serializes to `""`, and `utils.create_package_list`
agrees with `PackagesSpec.as_string`. -/
theorem claim5_package_delta_serialization :
    PackagesSpec.as_string ⟨["a", "b"], ["c"]⟩ = "a b -c"
    ∧ PackagesSpec.as_string ⟨[], []⟩ = ""
    ∧ ∀ p : PackagesSpec, create_package_list p = p.as_string :=
  ⟨by decide, by decide, fun _ => rfl⟩

/-- C1 (code bug): for the spec's example blob, the split does produce
the two package segments and the first file `network` is written with
body `"option x 1\n"`, but the claimed second file `wifi` is never
created: the unconditional `parent.mkdir(parents=True)` raises
`FileExistsError` (caught as `IOError`) because the config
subdirectory already exists after the first package, so the call
raises `ConfigCreationError` instead of producing two files. -/
theorem claim1_config_split_code_bug :
    packagesOf "network\n\noption x 1\nwifi\n\noption y 2\n"
      = ["network\n\noption x 1\n", "wifi\n\noption y 2\n"]
    ∧ (OpenWrtConfig.create_files "network\n\noption x 1\nwifi\n\noption y 2\n"
        ["out"] ⟨[["out"]], []⟩).1 = some CfgError.configCreationError
    ∧ lookupFile (OpenWrtConfig.create_files
        "network\n\noption x 1\nwifi\n\noption y 2\n" ["out"]
        ⟨[["out"]], []⟩).2.files ["out", "etc", "config", "network"]
      = some "option x 1\n"
    ∧ lookupFile (OpenWrtConfig.create_files
        "network\n\noption x 1\nwifi\n\noption y 2\n" ["out"]
        ⟨[["out"]], []⟩).2.files ["out", "etc", "config", "wifi"] = none :=
  ⟨by decide, by decide, by decide, by decide⟩

/-- C2: whenever the image cache gate reports a tier's image as already
existing, the corresponding bracketed steps — context preparation,
archive retrieval (builder tier) and image creation — are absent from
the pipeline's invocation trace. -/
theorem claim2_cache_skip (e : BuildEnv) (profile : String)
    (packages : Option String) (filesDirGiven : Bool)
    (extra_name : Option String) :
    (e.baseImageExists = true →
      Event.prepareBaseContext
          ∉ build_firmware_events e profile packages filesDirGiven extra_name
      ∧ Event.createBaseImage
          ∉ build_firmware_events e profile packages filesDirGiven extra_name)
    ∧ (e.builderImageExists = true →
      Event.prepareBuilderContext
          ∉ build_firmware_events e profile packages filesDirGiven extra_name
      ∧ Event.retrieveBuilderArchive
          ∉ build_firmware_events e profile packages filesDirGiven extra_name
      ∧ Event.createBuilderImage
          ∉ build_firmware_events e profile packages filesDirGiven extra_name) := by
  obtain ⟨be, ble, bo, ap, ro, bbo⟩ := e
  constructor
  · intro h
    cases h
    cases ble <;> cases bo <;> cases ap <;> cases ro <;> cases bbo <;>
      simp [build_firmware_events, builder_phase]
  · intro h
    cases h
    cases be <;> cases bo <;> cases ap <;> cases ro <;> cases bbo <;>
      simp [build_firmware_events, builder_phase]

/-- C2 witness: with both images reported present, neither tier's
bracketed steps appear in the trace. -/
theorem claim2_cache_skip_witness :
    Event.prepareBaseContext ∉ build_firmware_events
      ⟨true, true, true, true, true, true⟩ "generic" (some "a b -c") true
      (some "extra")
    ∧ Event.createBuilderImage ∉ build_firmware_events
      ⟨true, true, true, true, true, true⟩ "generic" (some "a b -c") true
      (some "extra") :=
  ⟨((claim2_cache_skip ⟨true, true, true, true, true, true⟩ "generic"
      (some "a b -c") true (some "extra")).1 rfl).1,
   (((claim2_cache_skip ⟨true, true, true, true, true, true⟩ "generic"
      (some "a b -c") true (some "extra")).2 rfl).2.2)⟩

/-- C3: the archive fetcher is idempotent by presence — when the archive
file already exists it returns immediately, performing no network I/O
and leaving the filesystem unchanged; consequently, after any
successful call, a second call performs no network I/O and succeeds
whatever the remote's availability then is. -/
theorem claim3_fetch_idempotent (st : BuilderState) (fs : FS) :
    (∀ remote, fs.pathExists (archivePath st) = true →
      retrieve_builder_archive st fs remote = ⟨none, fs, false⟩)
    ∧ (∀ r₁ r₂, (retrieve_builder_archive st fs r₁).outcome = none →
      retrieve_builder_archive st (retrieve_builder_archive st fs r₁).fs r₂
        = ⟨none, (retrieve_builder_archive st fs r₁).fs, false⟩) := by
  constructor
  · intro remote h
    simp [retrieve_builder_archive, h]
  · intro r₁ r₂ h
    by_cases hp : fs.pathExists (archivePath st) = true
    · simp [retrieve_builder_archive, hp]
    · cases r₁ with
      | ok body =>
        have hfs : (retrieve_builder_archive st fs (Remote.ok body)).fs
            = fs.writeFile (archivePath st) body := by
          simp [retrieve_builder_archive, hp]
        rw [hfs]
        have hex : (fs.writeFile (archivePath st) body).pathExists
            (archivePath st) = true := by
          simp [FS.pathExists, FS.isFile, FS.writeFile, lookupFile]
        simp [retrieve_builder_archive, hex]
      | httpError => simp [retrieve_builder_archive, hp] at h
      | transportError => simp [retrieve_builder_archive, hp] at h

/-- C3 witness: a concrete first fetch that downloads the archive,
followed by a second call that is a no-op although the remote has
become unreachable. -/
theorem claim3_fetch_idempotent_witness :
    (retrieve_builder_archive
      (Builder.init "23.05.0" "x86" "64" "generic" ["work"]
        "https://downloads.openwrt.org/") ⟨[["work"]], []⟩
      (Remote.ok "ARCHIVE")).outcome = none
    ∧ retrieve_builder_archive
        (Builder.init "23.05.0" "x86" "64" "generic" ["work"]
          "https://downloads.openwrt.org/")
        (retrieve_builder_archive
          (Builder.init "23.05.0" "x86" "64" "generic" ["work"]
            "https://downloads.openwrt.org/") ⟨[["work"]], []⟩
          (Remote.ok "ARCHIVE")).fs Remote.transportError
      = ⟨none,
          (retrieve_builder_archive
            (Builder.init "23.05.0" "x86" "64" "generic" ["work"]
              "https://downloads.openwrt.org/") ⟨[["work"]], []⟩
            (Remote.ok "ARCHIVE")).fs, false⟩ :=
  ⟨by decide,
   (claim3_fetch_idempotent
      (Builder.init "23.05.0" "x86" "64" "generic" ["work"]
        "https://downloads.openwrt.org/") ⟨[["work"]], []⟩).2
      (Remote.ok "ARCHIVE") Remote.transportError (by decide)⟩

/-- C4 counterexample: a fetch attempt with the archive absent that
fails through a transport error does not surface as
`ImageBuilderRetrievalFailure` — the transport exception propagates
uncaught, refuting the claim that every failing fetch surfaces as the
archive-retrieval failure error. -/
theorem claim4_transport_error_counterexample :
    (retrieve_builder_archive
      (Builder.init "23.05.0" "x86" "64" "generic" ["work"]
        "https://downloads.openwrt.org/") ⟨[["work"]], []⟩
      Remote.transportError).outcome = some FetchErr.transportException
    ∧ some FetchErr.transportException
        ≠ some FetchErr.imageBuilderRetrievalFailure :=
  ⟨by decide, by decide⟩

/-- C4 amended: for a fetch attempt with the archive absent, the fetch
fails with `ImageBuilderRetrievalFailure` exactly when the remote
responds with a non-success status; a transport error instead
propagates as the HTTP client's own exception, uncaught. -/
theorem claim4_fetch_error_amended (st : BuilderState) (fs : FS)
    (remote : Remote) (h : fs.pathExists (archivePath st) = false) :
    ((retrieve_builder_archive st fs remote).outcome
        = some FetchErr.imageBuilderRetrievalFailure ↔ remote = Remote.httpError)
    ∧ ((retrieve_builder_archive st fs remote).outcome
        = some FetchErr.transportException ↔ remote = Remote.transportError) := by
  cases remote <;> simp [retrieve_builder_archive, h]

/-- C4 witness: the amended characterization at a concrete absent
archive and a non-success response. -/
theorem claim4_fetch_error_amended_witness :
    (FS.mk [["work"]] []).pathExists
      (archivePath (Builder.init "23.05.0" "x86" "64" "generic" ["work"]
        "https://downloads.openwrt.org/")) = false
    ∧ (((retrieve_builder_archive
          (Builder.init "23.05.0" "x86" "64" "generic" ["work"]
            "https://downloads.openwrt.org/") ⟨[["work"]], []⟩
          Remote.httpError).outcome
            = some FetchErr.imageBuilderRetrievalFailure
          ↔ Remote.httpError = Remote.httpError)
      ∧ ((retrieve_builder_archive
          (Builder.init "23.05.0" "x86" "64" "generic" ["work"]
            "https://downloads.openwrt.org/") ⟨[["work"]], []⟩
          Remote.httpError).outcome
            = some FetchErr.transportException
          ↔ Remote.httpError = Remote.transportError)) :=
  ⟨by decide,
   claim4_fetch_error_amended
     (Builder.init "23.05.0" "x86" "64" "generic" ["work"]
       "https://downloads.openwrt.org/") ⟨[["work"]], []⟩
     Remote.httpError (by decide)⟩

/-- C6 counterexample: an empty package delta serializes to the empty
string, yet supplying that (non-None) empty delta string still appends
a `PACKAGES=` token to the build command — refuting the claim that the
token appears only for a non-empty delta. -/
theorem claim6_empty_delta_counterexample :
    PackagesSpec.as_string ⟨[], []⟩ = ""
    ∧ ("PACKAGES=" ++ PackagesSpec.as_string ⟨[], []⟩)
        ∈ build_cmd "generic" (some (PackagesSpec.as_string ⟨[], []⟩)) false
          none :=
  ⟨by decide, by decide⟩

/-- A packages token never equals the literal `make`. -/
theorem packages_ne_make (s : String) : "PACKAGES=" ++ s ≠ "make" :=
  str_tok_ne_lit "PACKAGES=" s "make" 0 'P' 'm' (by decide) (by decide)
    (by decide)

/-- A packages token never equals the literal `image`. -/
theorem packages_ne_image (s : String) : "PACKAGES=" ++ s ≠ "image" :=
  str_tok_ne_lit "PACKAGES=" s "image" 0 'P' 'i' (by decide) (by decide)
    (by decide)

/-- A packages token never equals a profile token. -/
theorem packages_ne_profile (s p : String) :
    "PACKAGES=" ++ s ≠ "PROFILE=" ++ p :=
  str_tok_ne "PACKAGES=" "PROFILE=" s p 1 'A' 'R' (by decide) (by decide)
    (by decide)

/-- A packages token never equals the output-binary-directory token. -/
theorem packages_ne_bindir (s : String) :
    "PACKAGES=" ++ s ≠ "BIN_DIR=/openwrt/result" :=
  str_tok_ne_lit "PACKAGES=" s "BIN_DIR=/openwrt/result" 0 'P' 'B'
    (by decide) (by decide) (by decide)

/-- A packages token never equals the files-mount token. -/
theorem packages_ne_files (s : String) :
    "PACKAGES=" ++ s ≠ "FILES=/openwrt/files" :=
  str_tok_ne_lit "PACKAGES=" s "FILES=/openwrt/files" 0 'P' 'F'
    (by decide) (by decide) (by decide)

/-- A packages token never equals an extra-image-name token. -/
theorem packages_ne_extra (s n : String) :
    "PACKAGES=" ++ s ≠ "EXTRA_IMAGE_NAME=" ++ n :=
  str_tok_ne "PACKAGES=" "EXTRA_IMAGE_NAME=" s n 0 'P' 'E' (by decide)
    (by decide) (by decide)

/-- An extra-image-name token never equals the literal `make`. -/
theorem extra_ne_make (n : String) : "EXTRA_IMAGE_NAME=" ++ n ≠ "make" :=
  str_tok_ne_lit "EXTRA_IMAGE_NAME=" n "make" 0 'E' 'm' (by decide)
    (by decide) (by decide)

/-- An extra-image-name token never equals the literal `image`. -/
theorem extra_ne_image (n : String) : "EXTRA_IMAGE_NAME=" ++ n ≠ "image" :=
  str_tok_ne_lit "EXTRA_IMAGE_NAME=" n "image" 0 'E' 'i' (by decide)
    (by decide) (by decide)

/-- An extra-image-name token never equals a profile token. -/
theorem extra_ne_profile (n p : String) :
    "EXTRA_IMAGE_NAME=" ++ n ≠ "PROFILE=" ++ p :=
  str_tok_ne "EXTRA_IMAGE_NAME=" "PROFILE=" n p 0 'E' 'P' (by decide)
    (by decide) (by decide)

/-- An extra-image-name token never equals the output-binary-directory
token. -/
theorem extra_ne_bindir (n : String) :
    "EXTRA_IMAGE_NAME=" ++ n ≠ "BIN_DIR=/openwrt/result" :=
  str_tok_ne_lit "EXTRA_IMAGE_NAME=" n "BIN_DIR=/openwrt/result" 0 'E' 'B'
    (by decide) (by decide) (by decide)

/-- An extra-image-name token never equals the files-mount token. -/
theorem extra_ne_files (n : String) :
    "EXTRA_IMAGE_NAME=" ++ n ≠ "FILES=/openwrt/files" :=
  str_tok_ne_lit "EXTRA_IMAGE_NAME=" n "FILES=/openwrt/files" 0 'E' 'F'
    (by decide) (by decide) (by decide)

/-- A files-mount token never equals a profile token. -/
theorem files_ne_profile (p : String) :
    "FILES=/openwrt/files" ≠ "PROFILE=" ++ p :=
  (str_tok_ne_lit "PROFILE=" p "FILES=/openwrt/files" 0 'P' 'F' (by decide)
    (by decide) (by decide)).symm

/-- A files-mount token never equals a packages token. -/
theorem files_ne_packages (s : String) :
    "FILES=/openwrt/files" ≠ "PACKAGES=" ++ s :=
  (packages_ne_files s).symm

/-- A files-mount token never equals an extra-image-name token. -/
theorem files_ne_extra_tok (n : String) :
    "FILES=/openwrt/files" ≠ "EXTRA_IMAGE_NAME=" ++ n :=
  (extra_ne_files n).symm

/-- An extra-image-name token never equals a packages token. -/
theorem extra_ne_packages (n s : String) :
    "EXTRA_IMAGE_NAME=" ++ n ≠ "PACKAGES=" ++ s :=
  (packages_ne_extra s n).symm

/-- Without a supplied packages string there is no packages token in the
constructed command. -/
theorem packages_tok_not_mem (profile : String) (fdg : Bool)
    (en : Option String) (s : String) :
    ("PACKAGES=" ++ s) ∉ build_cmd profile none fdg en := by
  intro h
  rcases en with _ | n <;> cases fdg <;>
    simp [build_cmd, packages_ne_make s, packages_ne_image s,
      packages_ne_profile s profile, packages_ne_bindir s, packages_ne_files s,
      packages_ne_extra s] at h

/-- Without a supplied files directory there is no files-mount token in
the constructed command. -/
theorem files_tok_not_mem (profile : String) (pk : Option String)
    (en : Option String) :
    "FILES=/openwrt/files" ∉ build_cmd profile pk false en := by
  intro h
  rcases pk with _ | s <;> rcases en with _ | n <;>
    simp [build_cmd, files_ne_profile profile, files_ne_packages,
      files_ne_extra_tok] at h

/-- Without a supplied extra name there is no extra-image-name token in
the constructed command. -/
theorem extra_tok_not_mem (profile : String) (pk : Option String)
    (fdg : Bool) (n : String) :
    ("EXTRA_IMAGE_NAME=" ++ n) ∉ build_cmd profile pk fdg none := by
  intro h
  rcases pk with _ | s <;> cases fdg <;>
    simp [build_cmd, extra_ne_make n, extra_ne_image n,
      extra_ne_profile n profile, extra_ne_bindir n, extra_ne_files n,
      extra_ne_packages n] at h

/-- C6 amended: the constructed command always carries the profile token
and the fixed output-binary-directory token; it carries a `PACKAGES=`
token exactly when a packages string was supplied (even the empty
string), the fixed files-mount token exactly when a files directory was
supplied, and an `EXTRA_IMAGE_NAME=` token exactly when an extra name
was supplied. -/
theorem claim6_build_cmd_tokens_amended (profile : String)
    (pk : Option String) (fdg : Bool) (en : Option String) :
    ("PROFILE=" ++ profile) ∈ build_cmd profile pk fdg en
    ∧ "BIN_DIR=/openwrt/result" ∈ build_cmd profile pk fdg en
    ∧ ((∃ s, ("PACKAGES=" ++ s) ∈ build_cmd profile pk fdg en)
        ↔ pk.isSome = true)
    ∧ (∀ s, pk = some s → ("PACKAGES=" ++ s) ∈ build_cmd profile pk fdg en)
    ∧ ("FILES=/openwrt/files" ∈ build_cmd profile pk fdg en ↔ fdg = true)
    ∧ ((∃ n, ("EXTRA_IMAGE_NAME=" ++ n) ∈ build_cmd profile pk fdg en)
        ↔ en.isSome = true)
    ∧ (∀ n, en = some n →
        ("EXTRA_IMAGE_NAME=" ++ n) ∈ build_cmd profile pk fdg en) := by
  refine ⟨?_, ?_, ⟨?_, ?_⟩, ?_, ⟨?_, ?_⟩, ⟨?_, ?_⟩, ?_⟩
  · rcases pk with _ | s <;> rcases en with _ | n <;> cases fdg <;>
      simp [build_cmd]
  · rcases pk with _ | s <;> rcases en with _ | n <;> cases fdg <;>
      simp [build_cmd]
  · rintro ⟨s, hs⟩
    rcases pk with _ | p
    · exact absurd hs (packages_tok_not_mem profile fdg en s)
    · rfl
  · intro h
    rcases pk with _ | p
    · simp at h
    · exact ⟨p, by rcases en with _ | n <;> cases fdg <;> simp [build_cmd]⟩
  · intro s hs
    subst hs
    rcases en with _ | n <;> cases fdg <;> simp [build_cmd]
  · intro h
    cases fdg
    · exact absurd h (files_tok_not_mem profile pk en)
    · rfl
  · intro h
    subst h
    rcases pk with _ | s <;> rcases en with _ | n <;> simp [build_cmd]
  · rintro ⟨n, hn⟩
    rcases en with _ | m
    · exact absurd hn (extra_tok_not_mem profile pk fdg n)
    · rfl
  · intro h
    rcases en with _ | m
    · simp at h
    · exact ⟨m, by rcases pk with _ | s <;> cases fdg <;> simp [build_cmd]⟩
  · intro n hn
    subst hn
    rcases pk with _ | s <;> cases fdg <;> simp [build_cmd]

/-- C6 witness: the amended characterization at a concrete fully wired
invocation. -/
theorem claim6_build_cmd_tokens_amended_witness :
    ("PROFILE=" ++ "generic")
        ∈ build_cmd "generic" (some "a b -c") true (some "x")
    ∧ ("PACKAGES=" ++ "a b -c")
        ∈ build_cmd "generic" (some "a b -c") true (some "x")
    ∧ ("EXTRA_IMAGE_NAME=" ++ "x")
        ∈ build_cmd "generic" (some "a b -c") true (some "x") :=
  ⟨(claim6_build_cmd_tokens_amended "generic" (some "a b -c") true
      (some "x")).1,
   (claim6_build_cmd_tokens_amended "generic" (some "a b -c") true
      (some "x")).2.2.2.1 "a b -c" rfl,
   (claim6_build_cmd_tokens_amended "generic" (some "a b -c") true
      (some "x")).2.2.2.2.2.2 "x" rfl⟩

/-- Looking a file up past a cons for a different path. -/
theorem lookupFile_cons_ne {q p : FsPath} {c : String}
    {fsf : List (FsPath × String)} (h : q ≠ p) :
    lookupFile ((q, c) :: fsf) p = lookupFile fsf p := by
  simp [lookupFile, h]

/-- Writing one file preserves the lookup of every other path. -/
theorem lookupFile_writeFile_ne {fs : FS} {q p : FsPath} {v : String}
    (hne : q ≠ p) :
    lookupFile (fs.writeFile q v).files p = lookupFile fs.files p :=
  lookupFile_cons_ne hne

/-- Writing a file preserves the existence of every existing path. -/
theorem pathExists_writeFile_mono {fs : FS} {q : FsPath} {v : String}
    {p : FsPath} (h : fs.pathExists p = true) :
    (fs.writeFile q v).pathExists p = true := by
  simp only [FS.pathExists, FS.isDir, FS.isFile, FS.writeFile,
    Bool.or_eq_true] at h ⊢
  rcases h with h | h
  · exact Or.inl h
  · right
    by_cases he : q = p
    · simp [lookupFile, he]
    · rw [show lookupFile ((q, v) :: fs.files) p = lookupFile fs.files p from
        lookupFile_cons_ne he]
      exact h

/-- Creating directories preserves the existence of every existing
path. -/
theorem pathExists_mkdirParents_mono {fs : FS} {q p : FsPath}
    (h : fs.pathExists p = true) :
    (fs.mkdirParents q).pathExists p = true := by
  simp only [FS.pathExists, FS.isDir, FS.isFile, FS.mkdirParents,
    Bool.or_eq_true, decide_eq_true_eq] at h ⊢
  rcases h with h | h
  · exact Or.inl (List.mem_append_right _ h)
  · exact Or.inr h

/-- A successful package write never changes the recorded contents of a
file that already exists. -/
theorem writePackage_ok_preserves_file {fd : FsPath} {fs : FS}
    {pkg : String} {fs' : FS} {p : FsPath} {c : String}
    (hw : writePackage fd fs pkg = .ok fs')
    (hc : lookupFile fs.files p = some c) :
    lookupFile fs'.files p = some c := by
  simp only [writePackage] at hw
  split at hw
  · exact absurd hw (by simp)
  · split at hw
    · exact absurd hw (by simp)
    · rename_i hex _
      obtain rfl := Except.ok.inj hw
      have hne : fd ++ config_path ++ [(linesOf pkg).headD ""] ≠ p := by
        intro he
        apply hex
        rw [he]
        simp only [FS.pathExists, FS.isFile, hc, Option.isSome_some,
          Bool.or_true]
      rw [lookupFile_writeFile_ne hne]
      exact hc

/-- A successful package write preserves the existence of every
pre-existing path. -/
theorem writePackage_ok_preserves_exists {fd : FsPath} {fs : FS}
    {pkg : String} {fs' : FS} {p : FsPath}
    (hw : writePackage fd fs pkg = .ok fs')
    (hex : fs.pathExists p = true) : fs'.pathExists p = true := by
  simp only [writePackage] at hw
  split at hw
  · exact absurd hw (by simp)
  · split at hw
    · exact absurd hw (by simp)
    · obtain rfl := Except.ok.inj hw
      exact pathExists_writeFile_mono (pathExists_mkdirParents_mono hex)

/-- A package whose target file already exists makes the package write
fail. -/
theorem writePackage_error_of_target_exists {fd : FsPath} {fs : FS}
    {pkg : String} (h : fs.pathExists (packageTarget fd pkg) = true) :
    writePackage fd fs pkg = .error .configCreationError := by
  unfold writePackage
  rw [if_pos]
  exact h

/-- The materialization loop never changes the recorded contents of a
file that already exists. -/
theorem createFilesLoop_preserves_file (fd : FsPath) :
    ∀ (l : List String) (fs : FS) {p : FsPath} {c : String},
      lookupFile fs.files p = some c →
      lookupFile ((createFilesLoop fd fs l).2).files p = some c := by
  intro l
  induction l with
  | nil => intro fs p c h; simpa [createFilesLoop] using h
  | cons pkg rest ih =>
    intro fs p c h
    rcases hw : writePackage fd fs pkg with e | fs'
    · simpa [createFilesLoop, hw] using h
    · simpa [createFilesLoop, hw] using
        ih fs' (writePackage_ok_preserves_file hw h)

/-- The materialization loop fails whenever one of its packages has a
pre-existing target file. -/
theorem createFilesLoop_error_of_target_exists (fd : FsPath) :
    ∀ (l : List String) (fs : FS) {pkg : String}, pkg ∈ l →
      fs.pathExists (packageTarget fd pkg) = true →
      (createFilesLoop fd fs l).1 = some CfgError.configCreationError := by
  intro l
  induction l with
  | nil => intro fs pkg hmem; exact absurd hmem (List.not_mem_nil pkg)
  | cons hd rest ih =>
    intro fs pkg hmem hex
    rcases List.mem_cons.1 hmem with rfl | hmem'
    · simp [createFilesLoop, writePackage_error_of_target_exists hex]
    · rcases hw : writePackage fd fs hd with e | fs'
      · cases e
        simp [createFilesLoop, hw]
      · simpa [createFilesLoop, hw] using
          ih fs' hmem' (writePackage_ok_preserves_exists hw hex)

/-- C7: materializing into an output directory that already contains one
of the target files raises `ConfigCreationError`, and the pre-existing
file's contents are unchanged after the call; likewise a single-file
materialization whose target exists fails and leaves the filesystem
entirely unchanged. -/
theorem claim7_collision_policy (blob : String) (fd : FsPath) (fs : FS)
    (pkg : String) (c : String) (hmem : pkg ∈ packagesOf blob)
    (hpre : lookupFile fs.files (packageTarget fd pkg) = some c) :
    (OpenWrtConfig.create_files blob fd fs).1 = some CfgError.configCreationError
    ∧ lookupFile ((OpenWrtConfig.create_files blob fd fs).2).files
        (packageTarget fd pkg) = some c
    ∧ ∀ (file : FileContentsSpec) (loc : FsPath) (c₂ : String),
        lookupFile fs.files (loc ++ file.path) = some c₂ →
        file.create_file_at_location loc fs
          = (some CfgError.configCreationError, fs) := by
  refine ⟨?_, ?_, ?_⟩
  · unfold OpenWrtConfig.create_files
    split
    · have hex : fs.pathExists (packageTarget fd pkg) = true := by
        simp [FS.pathExists, FS.isFile, hpre]
      exact createFilesLoop_error_of_target_exists fd (packagesOf blob) fs
        hmem hex
    · rfl
  · unfold OpenWrtConfig.create_files
    split
    · exact createFilesLoop_preserves_file fd (packagesOf blob) fs hpre
    · exact hpre
  · intro file loc c₂ hl
    unfold FileContentsSpec.create_file_at_location
    split
    · have hex : fs.pathExists (loc ++ file.path) = true := by
        simp [FS.pathExists, FS.isFile, hl]
      rw [show createFileStep loc fs file
          = .error CfgError.configCreationError by
        unfold createFileStep
        rw [if_pos]
        exact hex]
    · rfl

/-- C7 witness: a concrete single-package blob whose target file already
exists — the call fails and the old contents survive. -/
theorem claim7_collision_policy_witness :
    "network\n\noption x 1" ∈ packagesOf "network\n\noption x 1"
    ∧ lookupFile [((["out", "etc", "config", "network"] : FsPath), "old")]
        (packageTarget ["out"] "network\n\noption x 1") = some "old"
    ∧ ((OpenWrtConfig.create_files "network\n\noption x 1" ["out"]
          ⟨[["out"]], [(["out", "etc", "config", "network"], "old")]⟩).1
        = some CfgError.configCreationError
      ∧ lookupFile ((OpenWrtConfig.create_files "network\n\noption x 1"
          ["out"]
          ⟨[["out"]], [(["out", "etc", "config", "network"], "old")]⟩).2).files
          (packageTarget ["out"] "network\n\noption x 1") = some "old"
      ∧ ∀ (file : FileContentsSpec) (loc : FsPath) (c₂ : String),
          lookupFile
              (FS.mk [["out"]]
                [(["out", "etc", "config", "network"], "old")]).files
              (loc ++ file.path) = some c₂ →
          file.create_file_at_location loc
              ⟨[["out"]], [(["out", "etc", "config", "network"], "old")]⟩
            = (some CfgError.configCreationError,
                ⟨[["out"]], [(["out", "etc", "config", "network"], "old")]⟩)) :=
  ⟨by decide, by decide,
   claim7_collision_policy "network\n\noption x 1" ["out"]
     ⟨[["out"]], [(["out", "etc", "config", "network"], "old")]⟩
     "network\n\noption x 1" "old" (by decide) (by decide)⟩

/-- Splitting at the first occurrence of a separator character is
unambiguous: two decompositions around a separator absent from both
left parts agree componentwise. -/
theorem sep_eq_split {c : Char} :
    ∀ {xs xs' ys ys' : List Char}, c ∉ xs → c ∉ xs' →
      xs ++ c :: ys = xs' ++ c :: ys' → xs = xs' ∧ ys = ys' := by
  intro xs
  induction xs with
  | nil =>
    intro xs' ys ys' _ h2 h
    cases xs' with
    | nil =>
      simp only [List.nil_append] at h
      exact ⟨rfl, (List.cons.inj h).2⟩
    | cons a t =>
      simp only [List.nil_append, List.cons_append] at h
      obtain ⟨he, -⟩ := List.cons.inj h
      exact absurd (by rw [he]; exact List.mem_cons_self a t) h2
  | cons a t ih =>
    intro xs' ys ys' h1 h2 h
    cases xs' with
    | nil =>
      simp only [List.nil_append, List.cons_append] at h
      obtain ⟨he, -⟩ := List.cons.inj h
      exact absurd (by rw [← he]; exact List.mem_cons_self a t) h1
    | cons b u =>
      simp only [List.cons_append] at h
      obtain ⟨he, h'⟩ := List.cons.inj h
      have h1' : c ∉ t := fun hm => h1 (List.mem_cons_of_mem a hm)
      have h2' : c ∉ u := fun hm => h2 (List.mem_cons_of_mem b hm)
      obtain ⟨e1, e2⟩ := ih h1' h2' h'
      exact ⟨by rw [he, e1], e2⟩

/-- C8 counterexample: two distinct (version, target, sub_target)
tuples whose components contain hyphens derive the same builder image
tag, refuting per-tuple uniqueness over arbitrary inputs. -/
theorem claim8_tag_collision_counterexample :
    (Builder.init "1" "2-3" "4" "p" [] "u/").builder_image_tag
      = (Builder.init "1-2" "3" "4" "p" [] "u/").builder_image_tag
    ∧ (("1", "2-3", "4") : String × String × String) ≠ ("1-2", "3", "4") :=
  ⟨by decide, by decide⟩

/-- C8 amended: the builder image tag is a deterministic function of
(version, target, sub_target) and is unique per tuple provided the
version and target contain no hyphen (the separator the tag uses),
while the base-tier tag is the fixed process-wide constant, independent
of every build parameter. -/
theorem claim8_tag_uniqueness_amended
    (v t s v' t' s' p p' : String) (wd wd' : FsPath) (u u' : String) :
    ('-' ∉ v.data → '-' ∉ t.data → '-' ∉ v'.data → '-' ∉ t'.data →
      (Builder.init v t s p wd u).builder_image_tag
        = (Builder.init v' t' s' p' wd' u').builder_image_tag →
      v = v' ∧ t = t' ∧ s = s')
    ∧ (Builder.init v t s p wd u).base_image_tag = _BASE_IMAGE_TAG := by
  constructor
  · intro hv ht hv' ht' htag
    simp only [Builder.init] at htag
    have hd := congrArg String.data htag
    simp only [data_append, List.append_assoc,
      show "-".data = ['-'] from rfl, List.singleton_append] at hd
    have hd2 := List.append_cancel_left hd
    obtain ⟨e1, e2⟩ := sep_eq_split hv hv' hd2
    obtain ⟨e3, e4⟩ := sep_eq_split ht ht' e2
    exact ⟨string_data_inj e1, string_data_inj e3, string_data_inj e4⟩
  · rfl

/-- C8 witness: the amended uniqueness at concrete hyphen-free
components, across two builders with different profiles, work
directories and base URLs. -/
theorem claim8_tag_uniqueness_amended_witness :
    '-' ∉ "23.05.0".data
    ∧ (Builder.init "23.05.0" "x86" "64" "generic" []
        "https://downloads.openwrt.org/").builder_image_tag
      = (Builder.init "23.05.0" "x86" "64" "other" ["w"]
        "https://mirror.example.org").builder_image_tag
    ∧ (("23.05.0" : String) = "23.05.0" ∧ ("x86" : String) = "x86"
        ∧ ("64" : String) = "64") :=
  ⟨by decide, by decide,
   (claim8_tag_uniqueness_amended "23.05.0" "x86" "64" "23.05.0" "x86" "64"
      "generic" "other" [] ["w"] "https://downloads.openwrt.org/"
      "https://mirror.example.org").1 (by decide) (by decide) (by decide)
      (by decide) (by decide)⟩

/-- C9 counterexample: a context directory that already exists on disk
with a customized Containerfile is overwritten by a prepare call — the
recipe files are rewritten unconditionally, refuting the claim that an
existing context directory's files are never overwritten. -/
theorem claim9_context_overwrite_counterexample :
    lookupFile
        (FS.mk [["work"], ["work", "base"]]
          [(["work", "base", "Containerfile"], "custom")]).files
        ["work", "base", "Containerfile"] = some "custom"
    ∧ lookupFile (prepare_context_dir ["work", "base"] "FROM fedora:39"
          [("entrypoint.sh", "#!/bin/bash")]
          ⟨[["work"], ["work", "base"]],
            [(["work", "base", "Containerfile"], "custom")]⟩).2.files
        ["work", "base", "Containerfile"] = some "FROM fedora:39"
    ∧ ("FROM fedora:39" : String) ≠ "custom" :=
  ⟨by decide, by decide, by decide⟩

/-- The directory set is unchanged by the auxiliary-file writes. -/
theorem foldl_writeFile_dirs (ctx : FsPath) :
    ∀ (files : List (String × String)) (fs : FS),
      (files.foldl (fun a nc => a.writeFile (ctx ++ [nc.1]) nc.2) fs).dirs
        = fs.dirs := by
  intro files
  induction files with
  | nil => intro fs; rfl
  | cons nc rest ih =>
    intro fs
    rw [List.foldl_cons, ih]
    rfl

/-- The Containerfile's contents are unchanged by the auxiliary-file
writes when no auxiliary file is named `Containerfile`. -/
theorem foldl_writeFile_lookup (ctx : FsPath) :
    ∀ (files : List (String × String)) (fs : FS),
      (∀ nc ∈ files, nc.1 ≠ "Containerfile") →
      lookupFile
          ((files.foldl (fun a nc => a.writeFile (ctx ++ [nc.1]) nc.2) fs).files)
          (ctx ++ ["Containerfile"])
        = lookupFile fs.files (ctx ++ ["Containerfile"]) := by
  intro files
  induction files with
  | nil => intro fs _; rfl
  | cons nc rest ih =>
    intro fs hn
    rw [List.foldl_cons, ih _ (fun x hx => hn x (List.mem_cons_of_mem nc hx))]
    have hne : ctx ++ [nc.1] ≠ ctx ++ ["Containerfile"] := by
      intro he
      exact hn nc (List.mem_cons_self nc rest)
        (List.cons.inj (List.append_cancel_left he)).1
    exact lookupFile_writeFile_ne hne

/-- C9 amended: when the context directory already exists, preparing it
creates no directory — presence gates only the `mkdir` — but the
Containerfile (and the auxiliary files) are rewritten unconditionally
on every invocation, in line with the Context Preparer's overwrite
policy; within a pipeline run such an invocation happens only when the
image cache gate reports the tier's image absent. -/
theorem claim9_context_dir_amended (context_dir : FsPath) (cf : String)
    (files : List (String × String)) (fs : FS)
    (hdir : fs.isDir context_dir = true)
    (hnames : ∀ nc ∈ files, nc.1 ≠ "Containerfile") :
    (prepare_context_dir context_dir cf files fs).1 = none
    ∧ ((prepare_context_dir context_dir cf files fs).2).dirs = fs.dirs
    ∧ lookupFile ((prepare_context_dir context_dir cf files fs).2).files
        (context_dir ++ ["Containerfile"]) = some cf := by
  have hex : fs.pathExists context_dir = true := by
    simp [FS.pathExists, hdir]
  simp only [prepare_context_dir, hex, hdir, if_true]
  refine ⟨trivial, ?_, ?_⟩
  · rw [foldl_writeFile_dirs]
    rfl
  · rw [foldl_writeFile_lookup context_dir files _ hnames]
    simp [FS.writeFile, lookupFile]

/-- C9 witness: the amended statement at a concrete pre-existing
context directory. -/
theorem claim9_context_dir_amended_witness :
    (FS.mk [["work"], ["work", "base"]] []).isDir ["work", "base"] = true
    ∧ ((prepare_context_dir ["work", "base"] "FROM fedora:39"
          [("entrypoint.sh", "#!/bin/bash")]
          ⟨[["work"], ["work", "base"]], []⟩).1 = none
      ∧ ((prepare_context_dir ["work", "base"] "FROM fedora:39"
          [("entrypoint.sh", "#!/bin/bash")]
          ⟨[["work"], ["work", "base"]], []⟩).2).dirs
        = (FS.mk [["work"], ["work", "base"]] []).dirs
      ∧ lookupFile ((prepare_context_dir ["work", "base"] "FROM fedora:39"
          [("entrypoint.sh", "#!/bin/bash")]
          ⟨[["work"], ["work", "base"]], []⟩).2).files
          (["work", "base"] ++ ["Containerfile"]) = some "FROM fedora:39") :=
  ⟨by decide,
   claim9_context_dir_amended ["work", "base"] "FROM fedora:39"
     [("entrypoint.sh", "#!/bin/bash")] ⟨[["work"], ["work", "base"]], []⟩
     (by decide) (by decide)⟩

/-- C10: whenever the parent directory of a target file already exists
before the write (and the target itself does not), the unconditional
`parent.mkdir(parents=True)` raises `FileExistsError`, caught as
`IOError` and re-raised as `ConfigCreationError`, and the file is not
written: this holds for the package loop of `create_files`, for
`FileContentsSpec.create_file_at_location`, and for
`utils.create_files`. -/
theorem claim10_parent_exists_failure (fd : FsPath) (fs : FS) (pkg : String)
    (rest : List String) (file : FileContentsSpec) (loc : FsPath)
    (h1 : fs.pathExists (packageTarget fd pkg) = false)
    (h2 : fs.pathExists ((packageTarget fd pkg).dropLast) = true) :
    writePackage fd fs pkg = .error .configCreationError
    ∧ createFilesLoop fd fs (pkg :: rest)
        = (some CfgError.configCreationError, fs)
    ∧ (fs.isDir loc = true → fs.pathExists (loc ++ file.path) = false →
        fs.pathExists ((loc ++ file.path).dropLast) = true →
        file.create_file_at_location loc fs
          = (some CfgError.configCreationError, fs))
    ∧ (fs.isDir loc = true → fs.pathExists (loc ++ file.path) = false →
        fs.pathExists ((loc ++ file.path).dropLast) = true →
        ∀ more : List FileContentsSpec,
          Utils.create_files (file :: more) loc fs
            = (some CfgError.configCreationError, fs)) := by
  simp only [packageTarget] at h1 h2
  have hw : writePackage fd fs pkg = Except.error CfgError.configCreationError := by
    simp only [writePackage]
    rw [if_neg (by rw [h1]; exact Bool.false_ne_true), if_pos h2]
  refine ⟨hw, ?_, ?_, ?_⟩
  · simp [createFilesLoop, hw]
  · intro hl hfp hpp
    have hstep : createFileStep loc fs file
        = Except.error CfgError.configCreationError := by
      simp only [createFileStep]
      rw [if_neg (by rw [hfp]; exact Bool.false_ne_true), if_pos hpp]
    simp [FileContentsSpec.create_file_at_location, hl, hstep]
  · intro hl hfp hpp more
    have hstep : createFileStep loc fs file
        = Except.error CfgError.configCreationError := by
      simp only [createFileStep]
      rw [if_neg (by rw [hfp]; exact Bool.false_ne_true), if_pos hpp]
    simp [Utils.create_files, utilsCreateFilesLoop, hl, hstep]

/-- C10 witness: with the config subdirectory already present (as after
a first package), a further package fails without being written, and a
single file whose parent is the existing output root fails as well. -/
theorem claim10_parent_exists_failure_witness :
    (FS.mk [["out"], ["out", "etc"], ["out", "etc", "config"]] []).pathExists
        (packageTarget ["out"] "wifi\n\noption y 2\n") = false
    ∧ (FS.mk [["out"], ["out", "etc"], ["out", "etc", "config"]] []).pathExists
        ((packageTarget ["out"] "wifi\n\noption y 2\n").dropLast) = true
    ∧ writePackage ["out"]
        ⟨[["out"], ["out", "etc"], ["out", "etc", "config"]], []⟩
        "wifi\n\noption y 2\n" = .error .configCreationError
    ∧ FileContentsSpec.create_file_at_location ⟨["foo.txt"], "hello"⟩ ["out"]
        ⟨[["out"], ["out", "etc"], ["out", "etc", "config"]], []⟩
      = (some CfgError.configCreationError,
          ⟨[["out"], ["out", "etc"], ["out", "etc", "config"]], []⟩) :=
  ⟨by decide, by decide,
   (claim10_parent_exists_failure ["out"]
      ⟨[["out"], ["out", "etc"], ["out", "etc", "config"]], []⟩
      "wifi\n\noption y 2\n" [] ⟨["foo.txt"], "hello"⟩ ["out"] (by decide)
      (by decide)).1,
   (claim10_parent_exists_failure ["out"]
      ⟨[["out"], ["out", "etc"], ["out", "etc", "config"]], []⟩
      "wifi\n\noption y 2\n" [] ⟨["foo.txt"], "hello"⟩ ["out"] (by decide)
      (by decide)).2.2.1 (by decide) (by decide) (by decide)⟩
